import Mathlib

/-!
Shallow embedding of the Commercium user-service authentication subsystem
(`pkg/auth` JWT service, `internal/user/models`, `internal/user/repository`,
`internal/user/service`, and the `internal/user/handlers` error mapping).

Modelling conventions:
* UUIDs are `Nat` (uuid.New results are passed in explicitly as fresh ids).
* Clock reads (`time.Now()`) are an explicit `now : Int` parameter, in unix
  seconds, matching the signing library's numeric-date semantics.
* bcrypt is modelled as an ideal salted hash: the hash value records the cost,
  the salt, and the hashed password; `CompareHashAndPassword` succeeds exactly
  when the password matches the one the hash was generated from.
* The HMAC-SHA256 signature is modelled as an ideal MAC: the tag of a payload
  under a key is the pair (key, payload), so a tag verifies exactly when it was
  produced with the same key over the same payload.
* Redis is a key-value list; the `refresh_token:%s` key format is injective in
  the user id, so cache keys are modelled directly as the user id.
* Fallible operations return `Except`; the distinct `fmt.Errorf` messages of
  the Go code are modelled as constructors of error types.
-/

namespace Commercium

/-! ## bcrypt (golang.org/x/crypto/bcrypt, as used by userService) -/

/-- Ideal model of a bcrypt hash: records cost, salt and hashed password. -/
structure BcryptHash where
  cost : Nat
  salt : Nat
  pw : String
deriving DecidableEq, Repr

/-- `userService.hashPassword`: bcrypt.GenerateFromPassword with DefaultCost
(10); the salt is drawn from the environment. -/
def hashPassword (salt : Nat) (password : String) : BcryptHash :=
  { cost := 10, salt := salt, pw := password }

/-- `userService.verifyPassword`: bcrypt.CompareHashAndPassword returns nil
exactly when the password matches the hashed one. -/
def verifyPassword (password : String) (hash : BcryptHash) : Bool :=
  hash.pw == password

/-! ## JWT service (pkg/auth) -/

/-- Signing methods relevant to the keyfunc check: the code accepts only the
HMAC family (HS256 is the one used); anything else is rejected. -/
inductive SigningMethod
  | HS256
  | RS256
  | alg_none
deriving DecidableEq, Repr

/-- jwt.RegisteredClaims (subset populated by the code). The subject is the
user id rendered by uuid.String(), which is injective, so it is modelled as
the `Nat` user id directly (uuid.Parse of a generated subject always
succeeds). -/
structure RegisteredClaims where
  jti : Nat
  issuer : String
  subject : Nat
  audience : List String
  expiresAt : Int
  issuedAt : Int
  notBefore : Int
deriving DecidableEq, Repr

/-- auth.Claims: custom identity claims plus embedded RegisteredClaims.
A refresh token carries no custom claims; when its JSON is parsed into this
struct the custom fields take Go zero values (modelled as 0 / ""). -/
structure Claims where
  userID : Nat
  email : String
  username : String
  role : String
  registered : RegisteredClaims
deriving DecidableEq, Repr

/-- A signed JWT: header's signing method, payload, and signature tag.
The tag is the ideal-MAC pair (signing key, signed payload). -/
structure Token where
  method : SigningMethod
  payload : Claims
  sig : String × Claims
deriving DecidableEq, Repr

/-- config.JWTConfig (durations in seconds). -/
structure JWTConfig where
  secretKey : String
  issuer : String
  expiration : Int
  refreshExpiration : Int
deriving DecidableEq, Repr

/-- auth.TokenPair. -/
structure TokenPair where
  accessToken : Token
  refreshToken : Token
  tokenType : String
  expiresIn : Int
deriving DecidableEq, Repr

/-- `JWTService.GenerateTokenPair`: access token carries identity claims and
audience "commercium"; refresh token carries subject only and audience
"commercium-refresh". `jti1`/`jti2` are the two uuid.New token ids. -/
def generateTokenPair (cfg : JWTConfig) (now : Int) (jti1 jti2 : Nat)
    (userID : Nat) (email username role : String) : TokenPair :=
  let accessClaims : Claims :=
    { userID := userID, email := email, username := username, role := role,
      registered :=
        { jti := jti1, issuer := cfg.issuer, subject := userID,
          audience := ["commercium"],
          expiresAt := now + cfg.expiration, issuedAt := now, notBefore := now } }
  let refreshClaims : Claims :=
    { userID := 0, email := "", username := "", role := "",
      registered :=
        { jti := jti2, issuer := cfg.issuer, subject := userID,
          audience := ["commercium-refresh"],
          expiresAt := now + cfg.refreshExpiration, issuedAt := now,
          notBefore := now } }
  { accessToken :=
      { method := .HS256, payload := accessClaims,
        sig := (cfg.secretKey, accessClaims) },
    refreshToken :=
      { method := .HS256, payload := refreshClaims,
        sig := (cfg.secretKey, refreshClaims) },
    tokenType := "Bearer",
    expiresIn := cfg.expiration }

/-- jwt.ParseWithClaims validation as configured by the code: the keyfunc
rejects any non-HMAC method, the signature must verify under the secret, and
the default claim validation (leeway 0) requires the token to be unexpired
(`now < exp`) and already valid (`nbf ≤ now`). No audience or issuer
validation is performed by Parse itself. -/
def parseValid (cfg : JWTConfig) (now : Int) (t : Token) : Bool :=
  t.method == .HS256 && t.sig == (cfg.secretKey, t.payload) &&
    decide (now < t.payload.registered.expiresAt) &&
    decide (t.payload.registered.notBefore ≤ now)

/-- Error outcomes of the two validators, keyed by the distinct error paths of
the Go code. -/
inductive JWTError
  | parseFailed
  | invalidAudience
deriving DecidableEq, Repr

/-- `JWTService.ValidateAccessToken`: parse + signature + time checks, then
returns the claims. No audience check is performed. -/
def validateAccessToken (cfg : JWTConfig) (now : Int) (t : Token) :
    Except JWTError Claims :=
  if parseValid cfg now t then .ok t.payload else .error .parseFailed

/-- `JWTService.ValidateRefreshToken`: parse + signature + time checks, then
an explicit scan of the audience list for "commercium-refresh". -/
def validateRefreshToken (cfg : JWTConfig) (now : Int) (t : Token) :
    Except JWTError RegisteredClaims :=
  if parseValid cfg now t then
    if t.payload.registered.audience.any (· == "commercium-refresh") then
      .ok t.payload.registered
    else .error .invalidAudience
  else .error .parseFailed

/-! ## Data model (internal/user/models) -/

/-- models.User (timestamps as unix seconds). -/
structure User where
  id : Nat
  username : String
  email : String
  passwordHash : BcryptHash
  firstName : Option String
  lastName : Option String
  phone : Option String
  isActive : Bool
  isVerified : Bool
  role : String
  createdAt : Int
  updatedAt : Int
  lastLoginAt : Option Int
deriving DecidableEq, Repr

/-- models.UserAddress. -/
structure UserAddress where
  id : Nat
  userId : Nat
  type : String
  firstName : String
  lastName : String
  company : Option String
  addressLine1 : String
  addressLine2 : Option String
  city : String
  state : Option String
  postalCode : String
  country : String
  phone : Option String
  isDefault : Bool
  createdAt : Int
  updatedAt : Int
deriving DecidableEq, Repr

/-- models.PasswordResetToken. -/
structure PasswordResetToken where
  id : Nat
  userId : Nat
  token : String
  expiresAt : Int
  usedAt : Option Int
  createdAt : Int
deriving DecidableEq, Repr

/-- models.EmailVerificationToken. -/
structure EmailVerificationToken where
  id : Nat
  userId : Nat
  token : String
  expiresAt : Int
  usedAt : Option Int
  createdAt : Int
deriving DecidableEq, Repr

/-- models.UserProfile. Only the key matters to the claims below; the
profile's payload columns (avatar, bio, preferences, ...) are never read by
any claimed operation and are omitted. -/
structure UserProfile where
  userId : Nat
deriving DecidableEq, Repr

/-- models.UserResponse: the public view; it has no password-hash field. -/
structure UserResponse where
  id : Nat
  username : String
  email : String
  firstName : Option String
  lastName : Option String
  phone : Option String
  isActive : Bool
  isVerified : Bool
  role : String
  createdAt : Int
  updatedAt : Int
  lastLoginAt : Option Int
deriving DecidableEq, Repr

/-- `User.ToResponse`: copies every field except the password hash. -/
def User.toResponse (u : User) : UserResponse :=
  { id := u.id, username := u.username, email := u.email,
    firstName := u.firstName, lastName := u.lastName, phone := u.phone,
    isActive := u.isActive, isVerified := u.isVerified, role := u.role,
    createdAt := u.createdAt, updatedAt := u.updatedAt,
    lastLoginAt := u.lastLoginAt }

/-- Request bodies (internal/user/models). -/
structure CreateUserRequest where
  username : String
  email : String
  password : String
  firstName : Option String
  lastName : Option String
  phone : Option String
deriving DecidableEq, Repr

structure LoginRequest where
  username : String
  password : String
deriving DecidableEq, Repr

structure ChangePasswordRequest where
  currentPassword : String
  newPassword : String
deriving DecidableEq, Repr

structure ResetPasswordRequest where
  token : String
  newPassword : String
deriving DecidableEq, Repr

/-- models.AuthTokens (the service's copy of the token pair). -/
structure AuthTokens where
  accessToken : Token
  refreshToken : Token
  tokenType : String
  expiresIn : Int
deriving DecidableEq, Repr

/-! ## Repository (internal/user/repository over the SQL schema) -/

/-- The relational store: the four tables the claims touch. -/
structure DBState where
  users : List User
  profiles : List UserProfile
  addresses : List UserAddress
  resetTokens : List PasswordResetToken
  verifyTokens : List EmailVerificationToken
deriving DecidableEq, Repr

/-- Repository error outcomes (sql.ErrNoRows → "not found"; unique/foreign
key constraint violations of the schema). -/
inductive RepoError
  | notFound
  | uniqueViolation
  | fkViolation
deriving DecidableEq, Repr

namespace Repo

/-- `userRepository.GetByID`: SELECT ... WHERE id = $1. -/
def getByID (db : DBState) (id : Nat) : Except RepoError User :=
  match db.users.find? (fun u => u.id == id) with
  | some u => .ok u
  | none => .error .notFound

/-- `userRepository.GetByEmail`: SELECT ... WHERE email = $1. -/
def getByEmail (db : DBState) (email : String) : Except RepoError User :=
  match db.users.find? (fun u => u.email == email) with
  | some u => .ok u
  | none => .error .notFound

/-- `userRepository.GetByUsername`: SELECT ... WHERE username = $1. -/
def getByUsername (db : DBState) (username : String) : Except RepoError User :=
  match db.users.find? (fun u => u.username == username) with
  | some u => .ok u
  | none => .error .notFound

/-- `userRepository.Create`: INSERT (id, username, email, password_hash,
first_name, last_name, phone, role); is_active / is_verified / timestamps
come from the schema defaults (true / false / NOW()). The UNIQUE constraints
on username and email (and the primary key) reject duplicates. Returns the
stored row (the Go code scans the RETURNING timestamps back into it). -/
def create (db : DBState) (now : Int) (u : User) :
    Except RepoError (User × DBState) :=
  if db.users.any (fun v =>
      v.id == u.id || v.username == u.username || v.email == u.email) then
    .error .uniqueViolation
  else
    let stored : User :=
      { u with isActive := true, isVerified := false,
               createdAt := now, updatedAt := now, lastLoginAt := none }
    .ok (stored, { db with users := db.users ++ [stored] })

/-- `userRepository.Update`: the UPDATE statement's column list is
first_name, last_name, phone, is_active, is_verified, updated_at — and
nothing else; in particular password_hash is not among the columns written.
rowsAffected = 0 (no row with this id) is reported as "user not found". -/
def update (db : DBState) (now : Int) (u : User) : Except RepoError DBState :=
  if db.users.any (fun v => v.id == u.id) then
    .ok { db with users := db.users.map (fun v =>
      if v.id == u.id then
        { v with firstName := u.firstName, lastName := u.lastName,
                 phone := u.phone, isActive := u.isActive,
                 isVerified := u.isVerified, updatedAt := now }
      else v) }
  else .error .notFound

/-- `userRepository.UpdateLastLogin`: UPDATE users SET last_login_at = NOW()
WHERE id = $1 (rows affected not checked). -/
def updateLastLogin (db : DBState) (now : Int) (userID : Nat) : DBState :=
  { db with users := db.users.map (fun v =>
      if v.id == userID then { v with lastLoginAt := some now } else v) }

/-- `userRepository.CreateProfile`: INSERT INTO user_profiles; the primary
key on user_id rejects a duplicate. -/
def createProfile (db : DBState) (p : UserProfile) :
    Except RepoError DBState :=
  if db.profiles.any (fun q => q.userId == p.userId) then
    .error .uniqueViolation
  else .ok { db with profiles := db.profiles ++ [p] }

/-- `userRepository.CreateAddress`: one transaction that (a) when the new
address is default, clears is_default on every other address of the same
(user_id, type), and (b) INSERTs the row (primary-key and user_id
foreign-key constraints apply). On any failure the whole transaction rolls
back, so an error leaves the store untouched. -/
def createAddress (db : DBState) (now : Int) (a : UserAddress) :
    Except RepoError (UserAddress × DBState) :=
  if db.addresses.any (fun b => b.id == a.id) then .error .uniqueViolation
  else if !db.users.any (fun u => u.id == a.userId) then .error .fkViolation
  else
    let cleared := if a.isDefault then
        db.addresses.map (fun b =>
          if b.userId == a.userId && b.type == a.type then
            { b with isDefault := false }
          else b)
      else db.addresses
    let stored : UserAddress := { a with createdAt := now, updatedAt := now }
    .ok (stored, { db with addresses := cleared ++ [stored] })

/-- `userRepository.GetAddressByID`: SELECT ... WHERE id = $1. -/
def getAddressByID (db : DBState) (id : Nat) : Except RepoError UserAddress :=
  match db.addresses.find? (fun b => b.id == id) with
  | some b => .ok b
  | none => .error .notFound

/-- `userRepository.UpdateAddress`: one transaction that (a) when the update
sets is_default, clears is_default on the other addresses matching the
*request's* (user_id, type), and (b) UPDATEs the row's columns first_name,
last_name, company, address_line1, address_line2, city, state, postal_code,
country, phone, is_default, updated_at — the type column is not in the SET
list. rowsAffected = 0 rolls the transaction back with "address not
found". -/
def updateAddress (db : DBState) (now : Int) (a : UserAddress) :
    Except RepoError DBState :=
  if db.addresses.any (fun b => b.id == a.id) then
    let cleared := if a.isDefault then
        db.addresses.map (fun b =>
          if b.userId == a.userId && b.type == a.type && b.id != a.id then
            { b with isDefault := false }
          else b)
      else db.addresses
    .ok { db with addresses := cleared.map (fun b =>
      if b.id == a.id then
        { b with firstName := a.firstName, lastName := a.lastName,
                 company := a.company, addressLine1 := a.addressLine1,
                 addressLine2 := a.addressLine2, city := a.city,
                 state := a.state, postalCode := a.postalCode,
                 country := a.country, phone := a.phone,
                 isDefault := a.isDefault, updatedAt := now }
      else b) }
  else .error .notFound

/-- `userRepository.DeleteAddress`: DELETE ... WHERE id = $1; rowsAffected =
0 is "address not found". -/
def deleteAddress (db : DBState) (id : Nat) : Except RepoError DBState :=
  if db.addresses.any (fun b => b.id == id) then
    .ok { db with addresses := db.addresses.filter (fun b => b.id != id) }
  else .error .notFound

/-- `userRepository.GetPasswordResetToken`: SELECT ... WHERE token = $1 AND
used_at IS NULL AND expires_at > NOW(). -/
def getPasswordResetToken (db : DBState) (now : Int) (token : String) :
    Except RepoError PasswordResetToken :=
  match db.resetTokens.find? (fun t =>
      t.token == token && t.usedAt == none && decide (now < t.expiresAt)) with
  | some t => .ok t
  | none => .error .notFound

/-- `userRepository.MarkPasswordResetTokenUsed`: UPDATE ... SET used_at =
NOW() WHERE id = $1; rows affected are not checked (idempotent). -/
def markPasswordResetTokenUsed (db : DBState) (now : Int) (tokenID : Nat) :
    DBState :=
  { db with resetTokens := db.resetTokens.map (fun t =>
      if t.id == tokenID then { t with usedAt := some now } else t) }

/-- `userRepository.CreatePasswordResetToken`: INSERT; primary key rejects a
duplicate id. -/
def createPasswordResetToken (db : DBState) (now : Int)
    (t : PasswordResetToken) : Except RepoError DBState :=
  if db.resetTokens.any (fun s => s.id == t.id) then .error .uniqueViolation
  else .ok { db with resetTokens := db.resetTokens ++ [{ t with createdAt := now }] }

/-- `userRepository.CreateEmailVerificationToken`: INSERT; primary key
rejects a duplicate id. -/
def createEmailVerificationToken (db : DBState) (now : Int)
    (t : EmailVerificationToken) : Except RepoError DBState :=
  if db.verifyTokens.any (fun s => s.id == t.id) then .error .uniqueViolation
  else .ok { db with verifyTokens := db.verifyTokens ++ [{ t with createdAt := now }] }

end Repo

/-! ## Session cache (Redis wrapper in pkg/database) -/

/-- The cache's key space: the code keys refresh tokens by
`fmt.Sprintf("refresh_token:%s", userID)`, which is injective in the user id,
so entries are keyed by the user id directly. TTL expiry is modelled as
absence of the entry (GetString on a missing/expired key returns an error,
which the service layer folds into "not found or expired"). -/
abbrev CacheState : Type := List (Nat × Token)

/-- `Redis.GetString` on the refresh-token key. -/
def cacheGet (c : CacheState) (userID : Nat) : Option Token :=
  (List.find? (fun e => e.1 == userID) c).map (fun e => e.2)

/-- `Redis.SetWithExpiration` on the refresh-token key: overwrite. -/
def cachePut (c : CacheState) (userID : Nat) (t : Token) : CacheState :=
  (userID, t) :: List.filter (fun e => e.1 != userID) c

/-! ## Authentication service (internal/user/service userService) -/

/-- Service-level error outcomes; one constructor per distinct fmt.Errorf
message returned by userService. -/
inductive SvcError
  | emailAlreadyExists
  | usernameAlreadyExists
  | createUserFailed
  | invalidCredentials
  | accountDeactivated
  | invalidRefreshToken
  | refreshTokenNotFoundOrExpired
  | userNotFound
  | currentPasswordIncorrect
  | updateUserFailed
  | invalidOrExpiredResetToken
  | addressNotFound
  | addressNotOwned
  | createAddressFailed
  | updateAddressFailed
  | deleteAddressFailed
deriving DecidableEq, Repr

/-- The error text each constructor models (the strings built by
fmt.Errorf in userService, after %w wrapping of the repository message). -/
def SvcError.message : SvcError → String
  | .emailAlreadyExists => "user with email already exists"
  | .usernameAlreadyExists => "user with username already exists"
  | .createUserFailed => "failed to create user"
  | .invalidCredentials => "invalid credentials"
  | .accountDeactivated => "account is deactivated"
  | .invalidRefreshToken => "invalid refresh token"
  | .refreshTokenNotFoundOrExpired => "refresh token not found or expired"
  | .userNotFound => "user not found"
  | .currentPasswordIncorrect => "current password is incorrect"
  | .updateUserFailed => "failed to update user"
  | .invalidOrExpiredResetToken => "invalid or expired reset token"
  | .addressNotFound => "address not found: address not found"
  | .addressNotOwned => "address does not belong to user"
  | .createAddressFailed => "failed to create address"
  | .updateAddressFailed => "failed to update address"
  | .deleteAddressFailed => "failed to delete address"

/-- Whole service state: the relational store plus the session cache. -/
structure SvcState where
  db : DBState
  cache : CacheState
deriving DecidableEq

/-- Fresh values consumed by Register: the uuid.New user id, the bcrypt
salt, the uuid.New verification-token id, the random verification token
value, and the clock. -/
structure RegisterEnv where
  newUserId : Nat
  salt : Nat
  verifyTokenId : Nat
  verifyTokenValue : String
  now : Int
deriving DecidableEq, Repr

/-- `userService.generateEmailVerificationToken`: 32 random bytes hex-encoded,
24 h expiry, stored via the repository. -/
def generateEmailVerificationToken (db : DBState) (env : RegisterEnv)
    (userID : Nat) : Except RepoError DBState :=
  Repo.createEmailVerificationToken db env.now
    { id := env.verifyTokenId, userId := userID,
      token := env.verifyTokenValue,
      expiresAt := env.now + 24 * 3600, usedAt := none, createdAt := env.now }

/-- `userService.Register`: conflict checks by email then username (a lookup
that returns a user means conflict), hash the password, create the row
(service sets active=true, verified=false, role="customer"), then best-effort
profile creation and best-effort verification-token generation (failures of
the last two are logged, not fatal), and return the public view of the
created row. -/
def register (st : SvcState) (env : RegisterEnv) (req : CreateUserRequest) :
    Except SvcError (UserResponse × SvcState) :=
  if (Repo.getByEmail st.db req.email).isOk then .error .emailAlreadyExists
  else if (Repo.getByUsername st.db req.username).isOk then
    .error .usernameAlreadyExists
  else
    let user : User :=
      { id := env.newUserId, username := req.username, email := req.email,
        passwordHash := hashPassword env.salt req.password,
        firstName := req.firstName, lastName := req.lastName,
        phone := req.phone, isActive := true, isVerified := false,
        role := "customer", createdAt := 0, updatedAt := 0,
        lastLoginAt := none }
    match Repo.create st.db env.now user with
    | .error _ => .error .createUserFailed
    | .ok (stored, db1) =>
      let db2 := match Repo.createProfile db1 { userId := stored.id } with
        | .ok d => d
        | .error _ => db1
      let db3 := match generateEmailVerificationToken db2 env stored.id with
        | .ok d => d
        | .error _ => db2
      .ok (stored.toResponse, { st with db := db3 })

/-- The identifier resolution inside `userService.Login`: try GetByEmail on
the supplied identifier first; only if that fails, try GetByUsername. -/
def resolveLoginUser (db : DBState) (identifier : String) : Option User :=
  match Repo.getByEmail db identifier with
  | .ok u => some u
  | .error _ =>
    match Repo.getByUsername db identifier with
    | .ok u => some u
    | .error _ => none

/-- `userService.Login`: resolve the identifier (email first, then
username; neither → invalid credentials), reject a deactivated account
before the password is checked, verify the password, generate a token pair,
best-effort update last login, best-effort cache the refresh token, and
return the tokens. -/
def login (cfg : JWTConfig) (st : SvcState) (now : Int) (jti1 jti2 : Nat)
    (req : LoginRequest) : Except SvcError (AuthTokens × SvcState) :=
  match resolveLoginUser st.db req.username with
  | none => .error .invalidCredentials
  | some user =>
    if !user.isActive then .error .accountDeactivated
    else if !verifyPassword req.password user.passwordHash then
      .error .invalidCredentials
    else
      let pair := generateTokenPair cfg now jti1 jti2 user.id user.email
        user.username user.role
      let db1 := Repo.updateLastLogin st.db now user.id
      let cache1 := cachePut st.cache user.id pair.refreshToken
      .ok ({ accessToken := pair.accessToken,
             refreshToken := pair.refreshToken,
             tokenType := pair.tokenType, expiresIn := pair.expiresIn },
           { db := db1, cache := cache1 })

/-- `userService.RefreshToken`: structural validation via the token service,
subject as user id, exact-match gate against the cached refresh token (cache
miss or inequality → not found or expired), load the user, require
active, then issue and cache a new pair. -/
def refreshToken (cfg : JWTConfig) (st : SvcState) (now : Int)
    (jti1 jti2 : Nat) (presented : Token) :
    Except SvcError (AuthTokens × SvcState) :=
  match validateRefreshToken cfg now presented with
  | .error _ => .error .invalidRefreshToken
  | .ok claims =>
    let userID := claims.subject
    match cacheGet st.cache userID with
    | none => .error .refreshTokenNotFoundOrExpired
    | some cached =>
      if cached != presented then .error .refreshTokenNotFoundOrExpired
      else
        match Repo.getByID st.db userID with
        | .error _ => .error .userNotFound
        | .ok user =>
          if !user.isActive then .error .accountDeactivated
          else
            let pair := generateTokenPair cfg now jti1 jti2 user.id user.email
              user.username user.role
            .ok ({ accessToken := pair.accessToken,
                   refreshToken := pair.refreshToken,
                   tokenType := pair.tokenType, expiresIn := pair.expiresIn },
                 { st with cache := cachePut st.cache userID pair.refreshToken })

/-- `userService.ChangePassword`: load the user, verify the current
password, hash the new password, assign it to the in-memory struct and call
the repository Update. -/
def changePassword (st : SvcState) (now : Int) (salt : Nat) (userID : Nat)
    (req : ChangePasswordRequest) : Except SvcError SvcState :=
  match Repo.getByID st.db userID with
  | .error _ => .error .userNotFound
  | .ok user =>
    if !verifyPassword req.currentPassword user.passwordHash then
      .error .currentPasswordIncorrect
    else
      let hashed := hashPassword salt req.newPassword
      match Repo.update st.db now { user with passwordHash := hashed } with
      | .error _ => .error .updateUserFailed
      | .ok db1 => .ok { st with db := db1 }

/-- `userService.ResetPassword`: fetch-if-valid (unused, unexpired) reset
token, load the owning user, hash the new password, assign it to the
in-memory struct and call the repository Update, then best-effort mark the
token used (a marking failure is logged, not fatal; in the pure model the
marking succeeds). -/
def resetPassword (st : SvcState) (now : Int) (salt : Nat)
    (req : ResetPasswordRequest) : Except SvcError SvcState :=
  match Repo.getPasswordResetToken st.db now req.token with
  | .error _ => .error .invalidOrExpiredResetToken
  | .ok resetTok =>
    match Repo.getByID st.db resetTok.userId with
    | .error _ => .error .userNotFound
    | .ok user =>
      let hashed := hashPassword salt req.newPassword
      match Repo.update st.db now { user with passwordHash := hashed } with
      | .error _ => .error .updateUserFailed
      | .ok db1 =>
        .ok { st with db := Repo.markPasswordResetTokenUsed db1 now resetTok.id }

/-- `userService.CreateAddress`: assign a fresh id and the caller's user id,
then create through the repository transaction. -/
def createAddress (st : SvcState) (now : Int) (newId : Nat) (userID : Nat)
    (address : UserAddress) : Except SvcError (UserAddress × SvcState) :=
  let address1 := { address with id := newId, userId := userID }
  match Repo.createAddress st.db now address1 with
  | .error _ => .error .createAddressFailed
  | .ok (stored, db1) => .ok (stored, { st with db := db1 })

/-- `userService.UpdateAddress`: load the row; a missing row is "address not
found" and a row owned by someone else is "address does not belong to user",
both returned before any write; then overwrite id and user id from the
caller and update through the repository transaction. -/
def updateAddress (st : SvcState) (now : Int) (userID addressID : Nat)
    (address : UserAddress) : Except SvcError (UserAddress × SvcState) :=
  match Repo.getAddressByID st.db addressID with
  | .error _ => .error .addressNotFound
  | .ok existing =>
    if existing.userId != userID then .error .addressNotOwned
    else
      let address1 := { address with id := addressID, userId := userID }
      match Repo.updateAddress st.db now address1 with
      | .error _ => .error .updateAddressFailed
      | .ok db1 => .ok (address1, { st with db := db1 })

/-- `userService.DeleteAddress`: same ownership gate as UpdateAddress, then
delete by id. -/
def deleteAddress (st : SvcState) (userID addressID : Nat) :
    Except SvcError SvcState :=
  match Repo.getAddressByID st.db addressID with
  | .error _ => .error .addressNotFound
  | .ok existing =>
    if existing.userId != userID then .error .addressNotOwned
    else
      match Repo.deleteAddress st.db addressID with
      | .error _ => .error .deleteAddressFailed
      | .ok db1 => .ok { st with db := db1 }

/-- The state the store is left in by a call returning a value and a state:
on error the Go function returned before committing any write, so the state
is the caller's. -/
def stateAfter {α : Type} (st : SvcState)
    (r : Except SvcError (α × SvcState)) : SvcState :=
  match r with
  | .ok (_, st1) => st1
  | .error _ => st

/-- Same, for the operations that return only an error or a new state. -/
def stateAfterUnit (st : SvcState) (r : Except SvcError SvcState) : SvcState :=
  match r with
  | .ok st1 => st1
  | .error _ => st

/-! ## HTTP error mapping (internal/user/handlers UserHandler) -/

/-- Whether `pat` is an initial segment of `s` (over character lists). -/
def charsStartWith : List Char → List Char → Bool
  | _, [] => true
  | [], _ :: _ => false
  | c :: cs, d :: ds => c == d && charsStartWith cs ds

/-- Whether `pat` occurs contiguously anywhere in `s`. -/
def charsContain : List Char → List Char → Bool
  | s, pat =>
    match s with
    | [] => pat.isEmpty
    | c :: cs => charsStartWith (c :: cs) pat || charsContain cs pat

/-- Go's strings.Contains. -/
def containsSubstr (s pat : String) : Bool :=
  charsContain s.data pat.data

/-- The UpdateAddress/DeleteAddress handlers' error mapping: an error whose
text contains "not found" or "does not belong" becomes 404 "Address not
found"; anything else is a 500. -/
def addressErrorResponse (e : SvcError) : Nat × String :=
  if containsSubstr e.message "not found" ||
      containsSubstr e.message "does not belong" then
    (404, "Address not found")
  else (500, "Failed to update address")

/-! ## Concrete instances used by the theorems and witnesses below -/

/-- A sample JWT configuration. -/
def sampleCfg : JWTConfig :=
  { secretKey := "jwt-secret", issuer := "commercium",
    expiration := 900, refreshExpiration := 86400 }

/-- A token pair minted at time 0 for user 42. -/
def samplePair : TokenPair :=
  generateTokenPair sampleCfg 0 1 2 42 "alice@example.com" "alice" "customer"

/-- alice's stored bcrypt hash (password "OldPass123", salt 7). -/
def aliceHash : BcryptHash := hashPassword 7 "OldPass123"

/-- An active registered user. -/
def alice : User :=
  { id := 1, username := "alice", email := "alice@example.com",
    passwordHash := aliceHash, firstName := none, lastName := none,
    phone := none, isActive := true, isVerified := false, role := "customer",
    createdAt := 0, updatedAt := 0, lastLoginAt := none }

/-- A deactivated user whose password is "OldPass123". -/
def bob : User :=
  { alice with
    id := 2, username := "bob", email := "bob@example.com",
    isActive := false }

/-- Store holding only alice. -/
def aliceState : SvcState :=
  { db := { users := [alice], profiles := [], addresses := [],
            resetTokens := [], verifyTokens := [] },
    cache := [] }

/-- Store holding alice and the deactivated bob. -/
def bobState : SvcState :=
  { db := { users := [alice, bob], profiles := [], addresses := [],
            resetTokens := [], verifyTokens := [] },
    cache := [] }

/-- An unused reset token for alice expiring at time 100. -/
def sampleResetToken : PasswordResetToken :=
  { id := 50, userId := 1, token := "tok123", expiresAt := 100,
    usedAt := none, createdAt := 0 }

/-- aliceState plus the pending reset token. -/
def resetState : SvcState :=
  { aliceState with
    db := { aliceState.db with resetTokens := [sampleResetToken] } }

/-- The stored password hash of a user id, read back from the store. -/
def storedHash (st : SvcState) (uid : Nat) : Option BcryptHash :=
  (st.db.users.find? (fun u => u.id == uid)).map (fun u => u.passwordHash)

/-- ChangePassword call on alice with the correct current password. -/
def c1ChangeRes : Except SvcError SvcState :=
  changePassword aliceState 5 9 1
    { currentPassword := "OldPass123", newPassword := "NewPass456" }

/-- ResetPassword call with alice's valid token. -/
def c1ResetRes : Except SvcError SvcState :=
  resetPassword resetState 5 9 { token := "tok123", newPassword := "NewPass456" }

/-- A default shipping address request body. -/
def shippingAddr : UserAddress :=
  { id := 0, userId := 0, type := "shipping", firstName := "John",
    lastName := "Doe", company := none, addressLine1 := "123 Main St",
    addressLine2 := none, city := "New York", state := none,
    postalCode := "10001", country := "US", phone := none, isDefault := true,
    createdAt := 0, updatedAt := 0 }

/-- After alice creates a default shipping address (id 10). -/
def c4State1 : SvcState :=
  stateAfter aliceState (createAddress aliceState 1 10 1 shippingAddr)

/-- After alice creates a second, non-default shipping address (id 11). -/
def c4State2 : SvcState :=
  stateAfter c4State1
    (createAddress c4State1 2 11 1 { shippingAddr with isDefault := false })

/-- The UpdateAddress request: same address fields, but type "billing" and
is_default set. -/
def c4UpdateReq : UserAddress := { shippingAddr with type := "billing" }

/-- alice updates address 11 with the billing/default request. -/
def c4Result : Except SvcError (UserAddress × SvcState) :=
  updateAddress c4State2 3 1 11 c4UpdateReq

/-- Final store of the C4 scenario. -/
def c4Final : SvcState := stateAfter c4State2 c4Result

/-- How many addresses of a (user, type) pair are flagged default. -/
def defaultCount (st : SvcState) (uid : Nat) (ty : String) : Nat :=
  (st.db.addresses.filter
    (fun a => a.userId == uid && a.type == ty && a.isDefault)).length

/-- Registration environment used by witnesses. -/
def sampleEnv : RegisterEnv :=
  { newUserId := 5, salt := 3, verifyTokenId := 6,
    verifyTokenValue := "vtok", now := 9 }

/-- Registration request reusing alice's email under another username. -/
def c6Req : CreateUserRequest :=
  { username := "alice2", email := "alice@example.com",
    password := "Password123", firstName := none, lastName := none,
    phone := none }

/-- Registration request with a fresh username and email. -/
def c8Req : CreateUserRequest :=
  { username := "carol", email := "carol@example.com",
    password := "Secret123", firstName := none, lastName := none,
    phone := none }

/-- An address stored for alice (id 20). -/
def aliceAddr : UserAddress :=
  { shippingAddr with id := 20, userId := 1, isDefault := false }

/-- Store holding alice, the deactivated bob, and alice's address. -/
def addrState : SvcState :=
  { db := { users := [alice, bob], profiles := [], addresses := [aliceAddr],
            resetTokens := [], verifyTokens := [] },
    cache := [] }

/-! ## Helper lemmas -/

theorem getByEmail_isOk_iff (db : DBState) (e : String) :
    (Repo.getByEmail db e).isOk = true ↔
      ∃ u ∈ db.users, u.email = e := by
  unfold Repo.getByEmail
  cases h : db.users.find? (fun u => u.email == e) with
  | none =>
    rw [List.find?_eq_none] at h
    simp only [Except.isOk]
    constructor
    · intro hc; cases hc
    · rintro ⟨u, hu, he⟩
      exact absurd (by simp [he]) (h u hu)
  | some u =>
    have hm := List.mem_of_find?_eq_some h
    have hp := List.find?_some h
    simp only [Except.isOk]
    constructor
    · intro _; exact ⟨u, hm, by simpa using hp⟩
    · intro _; rfl

theorem getByUsername_isOk_iff (db : DBState) (n : String) :
    (Repo.getByUsername db n).isOk = true ↔
      ∃ u ∈ db.users, u.username = n := by
  unfold Repo.getByUsername
  cases h : db.users.find? (fun u => u.username == n) with
  | none =>
    rw [List.find?_eq_none] at h
    simp only [Except.isOk]
    constructor
    · intro hc; cases hc
    · rintro ⟨u, hu, he⟩
      exact absurd (by simp [he]) (h u hu)
  | some u =>
    have hm := List.mem_of_find?_eq_some h
    have hp := List.find?_some h
    simp only [Except.isOk]
    constructor
    · intro _; exact ⟨u, hm, by simpa using hp⟩
    · intro _; rfl

theorem validateRefreshToken_ok_eq (cfg : JWTConfig) (now : Int) (t : Token)
    (c : RegisteredClaims) (h : validateRefreshToken cfg now t = .ok c) :
    c = t.payload.registered := by
  unfold validateRefreshToken at h
  split at h
  · split at h
    · injection h with h1
      exact h1.symm
    · cases h
  · cases h

theorem update_ok_resetTokens (db : DBState) (now : Int) (u : User)
    (db1 : DBState) (h : Repo.update db now u = .ok db1) :
    db1.resetTokens = db.resetTokens := by
  unfold Repo.update at h
  split at h
  · injection h with h1
    subst h1
    rfl
  · cases h

theorem createProfile_ok_users (db : DBState) (p : UserProfile)
    (db1 : DBState) (h : Repo.createProfile db p = .ok db1) :
    db1.users = db.users := by
  unfold Repo.createProfile at h
  split at h
  · cases h
  · injection h with h1
    subst h1
    rfl

theorem createEmailVerificationToken_ok_users (db : DBState) (now : Int)
    (t : EmailVerificationToken) (db1 : DBState)
    (h : Repo.createEmailVerificationToken db now t = .ok db1) :
    db1.users = db.users := by
  unfold Repo.createEmailVerificationToken at h
  split at h
  · cases h
  · injection h with h1
    subst h1
    rfl

/-! ## Claim theorems -/

/-- C1. The claim says a successful ChangePassword (and ResetPassword)
persists the rehash of the new password. The code does not: the repository
Update statement omits password_hash from its column list, so both calls
report success while the stored hash is still the old one — the new password
does not verify against the stored hash afterwards, and the old password
still does. This theorem evaluates both flows at the failing input. -/
theorem changePassword_resetPassword_hash_not_persisted :
    c1ChangeRes.isOk = true ∧
    storedHash (stateAfterUnit aliceState c1ChangeRes) 1 =
      some (hashPassword 7 "OldPass123") ∧
    c1ResetRes.isOk = true ∧
    storedHash (stateAfterUnit resetState c1ResetRes) 1 =
      some (hashPassword 7 "OldPass123") ∧
    verifyPassword "NewPass456" (hashPassword 7 "OldPass123") = false ∧
    verifyPassword "OldPass123" (hashPassword 7 "OldPass123") = true := by
  decide

/-- C2 counterexample. The claim says the refresh token of a generated pair
is rejected by ValidateAccessToken. It is not: ValidateAccessToken performs
no audience check, so the (signature- and time-valid) refresh token is
accepted by it. -/
theorem refresh_token_accepted_by_access_validator :
    (validateAccessToken sampleCfg 0 samplePair.refreshToken).isOk = true := by
  decide

/-- C2 amended. For every generated token pair (with positive configured
lifetimes, evaluated at minting time): the access token is accepted by
ValidateAccessToken and rejected by ValidateRefreshToken with an audience
error; the refresh token is accepted by ValidateRefreshToken; but — unlike
the claim — the refresh token is also accepted by ValidateAccessToken,
because ValidateAccessToken checks only the signing method, signature and
time claims, never the audience. -/
theorem token_pair_cross_validation (cfg : JWTConfig) (now : Int)
    (j1 j2 uid : Nat) (email uname role : String)
    (hexp : 0 < cfg.expiration) (hrexp : 0 < cfg.refreshExpiration) :
    (validateAccessToken cfg now
      (generateTokenPair cfg now j1 j2 uid email uname role).accessToken).isOk
        = true ∧
    validateRefreshToken cfg now
      (generateTokenPair cfg now j1 j2 uid email uname role).accessToken
        = .error .invalidAudience ∧
    (validateRefreshToken cfg now
      (generateTokenPair cfg now j1 j2 uid email uname role).refreshToken).isOk
        = true ∧
    (validateAccessToken cfg now
      (generateTokenPair cfg now j1 j2 uid email uname role).refreshToken).isOk
        = true := by
  have haccess : parseValid cfg now
      (generateTokenPair cfg now j1 j2 uid email uname role).accessToken
        = true := by
    simp [parseValid, generateTokenPair]
    omega
  have hrefresh : parseValid cfg now
      (generateTokenPair cfg now j1 j2 uid email uname role).refreshToken
        = true := by
    simp [parseValid, generateTokenPair]
    omega
  have haud1 : ((generateTokenPair cfg now j1 j2 uid email uname
      role).accessToken.payload.registered.audience.any
        (· == "commercium-refresh")) = false := by
    rfl
  have haud2 : ((generateTokenPair cfg now j1 j2 uid email uname
      role).refreshToken.payload.registered.audience.any
        (· == "commercium-refresh")) = true := by
    rfl
  refine ⟨?_, ?_, ?_, ?_⟩
  · simp [validateAccessToken, haccess, Except.isOk, Except.toBool]
  · simp [validateRefreshToken, haccess, haud1]
  · simp [validateRefreshToken, hrefresh, haud2, Except.isOk, Except.toBool]
  · simp [validateAccessToken, hrefresh, Except.isOk, Except.toBool]

/-- C2 witness: the amended statement at the sample configuration. -/
theorem token_pair_cross_validation_witness :
    (0 : Int) < sampleCfg.expiration ∧
    (0 : Int) < sampleCfg.refreshExpiration ∧
    ((validateAccessToken sampleCfg 0 samplePair.accessToken).isOk = true ∧
     validateRefreshToken sampleCfg 0 samplePair.accessToken
       = .error .invalidAudience ∧
     (validateRefreshToken sampleCfg 0 samplePair.refreshToken).isOk = true ∧
     (validateAccessToken sampleCfg 0 samplePair.refreshToken).isOk = true) :=
  ⟨by decide, by decide,
   token_pair_cross_validation sampleCfg 0 1 2 42 "alice@example.com" "alice"
     "customer" (by decide) (by decide)⟩

/-- C4. The claim states the at-most-one-default-per-(user, type) invariant
holds after any sequence of CreateAddress and UpdateAddress calls. The code
breaks it: UpdateAddress clears other defaults using the request's type, but
its UPDATE never writes the type column, so updating a shipping address with
a request carrying type "billing" and is_default=true clears the (empty)
billing defaults and flags the still-shipping row, leaving two default
shipping addresses. This theorem evaluates the three-step failing
sequence. -/
theorem update_address_type_change_breaks_default_invariant :
    (createAddress aliceState 1 10 1 shippingAddr).isOk = true ∧
    (createAddress c4State1 2 11 1
      { shippingAddr with isDefault := false }).isOk = true ∧
    c4Result.isOk = true ∧
    defaultCount c4Final 1 "shipping" = 2 := by
  decide

/-- C3. RefreshToken returns a new token pair exactly when the presented
token passes ValidateRefreshToken, the session-cache entry for the token's
subject exists and equals the presented token, and the subject's user record
exists with active=true; and whenever the cached entry differs from the
presented token — e.g. after mutating one character of a previously valid
refresh token — the call is rejected with one of the invalid-or-expired
refresh errors, independent of cryptographic validity. -/
theorem refreshToken_success_iff (cfg : JWTConfig) (st : SvcState)
    (now : Int) (j1 j2 : Nat) (p : Token) :
    ((refreshToken cfg st now j1 j2 p).isOk = true ↔
      ((validateRefreshToken cfg now p).isOk = true ∧
        cacheGet st.cache p.payload.registered.subject = some p ∧
        ∃ u, Repo.getByID st.db p.payload.registered.subject = .ok u ∧
          u.isActive = true)) ∧
    (∀ t, cacheGet st.cache p.payload.registered.subject = some t → t ≠ p →
      refreshToken cfg st now j1 j2 p = .error .invalidRefreshToken ∨
      refreshToken cfg st now j1 j2 p
        = .error .refreshTokenNotFoundOrExpired) := by
  constructor
  · unfold refreshToken
    cases hv : validateRefreshToken cfg now p with
    | error e =>
      simp [hv, Except.isOk, Except.toBool]
    | ok c =>
      have hc := validateRefreshToken_ok_eq cfg now p c hv
      subst hc
      cases hg : cacheGet st.cache p.payload.registered.subject with
      | none => simp [hv, hg, Except.isOk, Except.toBool]
      | some cached =>
        by_cases hcp : cached = p
        · cases hcp
          cases hid : Repo.getByID st.db p.payload.registered.subject with
          | error e =>
            simp [hv, hg, hid, Except.isOk, Except.toBool]
          | ok u =>
            by_cases hact : u.isActive = true
            · simp [hv, hg, hid, hact, Except.isOk, Except.toBool]
            · simp [hv, hg, hid, hact, Except.isOk, Except.toBool]
        · have hbne : (cached != p) = true := by simpa [bne_iff_ne] using hcp
          simp [hv, hg, hbne, Except.isOk, Except.toBool, hcp]
  · intro t ht hne
    cases hv : validateRefreshToken cfg now p with
    | error e =>
      left
      unfold refreshToken
      rw [hv]
    | ok c =>
      have hc := validateRefreshToken_ok_eq cfg now p c hv
      subst hc
      right
      have hbne : (t != p) = true := by simpa [bne_iff_ne] using hne
      unfold refreshToken
      rw [hv]
      simp [ht, hbne]

/-- C5. With a pending (unused, unexpired) reset token whose value is unique
in the token table and whose owner exists, the first ResetPassword succeeds
and records used_at on the token row, and a second call with the same token
value fails with the invalid-or-expired error, at any later (or any) clock
reading. -/
theorem resetPassword_token_single_use (st : SvcState) (now : Int)
    (salt : Nat) (req : ResetPasswordRequest) (rt : PasswordResetToken)
    (user : User) (now2 : Int) (salt2 : Nat) (pw2 : String)
    (h1 : Repo.getPasswordResetToken st.db now req.token = .ok rt)
    (h2 : Repo.getByID st.db rt.userId = .ok user)
    (h3 : ∀ t ∈ st.db.resetTokens, t.token = req.token → t.id = rt.id) :
    (resetPassword st now salt req).isOk = true ∧
    (∀ t ∈ (stateAfterUnit st
        (resetPassword st now salt req)).db.resetTokens,
      t.id = rt.id → t.usedAt = some now) ∧
    resetPassword (stateAfterUnit st (resetPassword st now salt req)) now2
      salt2 { token := req.token, newPassword := pw2 }
        = .error .invalidOrExpiredResetToken := by
  -- the owner is a stored row, so the repository Update finds it
  have huser : user ∈ st.db.users := by
    unfold Repo.getByID at h2
    cases hf : st.db.users.find? (fun u => u.id == rt.userId) with
    | none => rw [hf] at h2; cases h2
    | some u0 =>
      rw [hf] at h2
      injection h2 with h2'
      subst h2'
      exact List.mem_of_find?_eq_some hf
  have hany : (st.db.users.any (fun v => v.id == user.id)) = true := by
    rw [List.any_eq_true]
    exact ⟨user, huser, by simp⟩
  cases hupd : Repo.update st.db now
      { user with passwordHash := hashPassword salt req.newPassword } with
  | error e =>
    exfalso
    unfold Repo.update at hupd
    rw [if_pos hany] at hupd
    cases hupd
  | ok db1 =>
    have hdbtok : db1.resetTokens = st.db.resetTokens :=
      update_ok_resetTokens st.db now _ db1 hupd
    have hrun : resetPassword st now salt req
        = .ok { st with db := Repo.markPasswordResetTokenUsed db1 now rt.id } := by
      unfold resetPassword
      rw [h1]
      simp only [h2, hupd]
    have hfinaltok : (Repo.markPasswordResetTokenUsed db1 now
        rt.id).resetTokens = st.db.resetTokens.map (fun t =>
          if t.id == rt.id then { t with usedAt := some now } else t) := by
      unfold Repo.markPasswordResetTokenUsed
      rw [hdbtok]
    refine ⟨by simp [hrun, Except.isOk, Except.toBool], ?_, ?_⟩
    · intro t htmem hid
      rw [hrun] at htmem
      simp only [stateAfterUnit] at htmem
      rw [hfinaltok] at htmem
      rw [List.mem_map] at htmem
      obtain ⟨s, _, hs⟩ := htmem
      by_cases hsid : s.id = rt.id
      · rw [if_pos (by simpa using hsid)] at hs
        rw [← hs]
      · rw [if_neg (by simpa using hsid)] at hs
        subst hs
        exact absurd hid hsid
    · rw [hrun]
      simp only [stateAfterUnit]
      have hnone : ((Repo.markPasswordResetTokenUsed db1 now
          rt.id).resetTokens.find? (fun t =>
            t.token == req.token && t.usedAt == none &&
              decide (now2 < t.expiresAt))) = none := by
        rw [List.find?_eq_none, hfinaltok]
        intro t htmem
        rw [List.mem_map] at htmem
        obtain ⟨s, hsmem, hs⟩ := htmem
        by_cases hsid : s.id = rt.id
        · rw [if_pos (by simpa using hsid)] at hs
          subst hs
          simp
        · rw [if_neg (by simpa using hsid)] at hs
          subst hs
          have hst : s.token ≠ req.token := fun hc => hsid (h3 s hsmem hc)
          simp [hst]
      unfold resetPassword
      unfold Repo.getPasswordResetToken
      rw [hnone]

/-- C5 witness: the pending token in resetState, consumed at time 5 and
presented again at time 6. -/
theorem resetPassword_token_single_use_witness :
    (resetPassword resetState 5 9
      { token := "tok123", newPassword := "NewPass456" }).isOk = true ∧
    (∀ t ∈ (stateAfterUnit resetState (resetPassword resetState 5 9
        { token := "tok123", newPassword := "NewPass456" })).db.resetTokens,
      t.id = sampleResetToken.id → t.usedAt = some 5) ∧
    resetPassword (stateAfterUnit resetState (resetPassword resetState 5 9
      { token := "tok123", newPassword := "NewPass456" })) 6 11
      { token := "tok123", newPassword := "Again789" }
        = .error .invalidOrExpiredResetToken :=
  resetPassword_token_single_use resetState 5 9
    { token := "tok123", newPassword := "NewPass456" } sampleResetToken alice
    6 11 "Again789" (by rfl) (by rfl) (by decide)

/-- When the conflict checks pass and the insert succeeds, Register returns
the stored row's public view, and the best-effort profile / verification
steps never change the users table. -/
theorem register_ok_of_create_ok (st : SvcState) (env : RegisterEnv)
    (req : CreateUserRequest) (stored : User) (db1 : DBState)
    (hemail : (Repo.getByEmail st.db req.email).isOk = false)
    (husername : (Repo.getByUsername st.db req.username).isOk = false)
    (hcr : Repo.create st.db env.now
      { id := env.newUserId, username := req.username, email := req.email,
        passwordHash := hashPassword env.salt req.password,
        firstName := req.firstName, lastName := req.lastName,
        phone := req.phone, isActive := true, isVerified := false,
        role := "customer", createdAt := 0, updatedAt := 0,
        lastLoginAt := none } = .ok (stored, db1)) :
    ∃ st1, register st env req = .ok (stored.toResponse, st1) ∧
      st1.db.users = db1.users := by
  unfold register
  rw [if_neg (by simp [hemail]), if_neg (by simp [husername])]
  simp only [hcr]
  cases hcp : Repo.createProfile db1 { userId := stored.id } with
  | ok d2 =>
    have hd2 := createProfile_ok_users db1 _ d2 hcp
    cases hct : generateEmailVerificationToken d2 env stored.id with
    | ok d3 =>
      have hd3 := createEmailVerificationToken_ok_users d2 env.now _ d3 hct
      exact ⟨{ st with db := d3 }, by simp [hcp, hct], by rw [hd3, hd2]⟩
    | error e =>
      exact ⟨{ st with db := d2 }, by simp [hcp, hct], by rw [hd2]⟩
  | error e =>
    cases hct : generateEmailVerificationToken db1 env stored.id with
    | ok d3 =>
      have hd3 := createEmailVerificationToken_ok_users db1 env.now _ d3 hct
      exact ⟨{ st with db := d3 }, by simp [hcp, hct], by rw [hd3]⟩
    | error e2 =>
      exact ⟨{ st with db := db1 }, by simp [hcp, hct], by rfl⟩

/-- C8. For every registration request whose email, username and fresh id
collide with no stored user, Register succeeds; the created row carries the
defaults active=true, verified=false, role="customer"; the returned view is
the row's public view; and the public view is independent of the password
hash (two users differing only in their hash produce the same view), so it
never contains the hash. -/
theorem register_success_defaults_and_public_view (st : SvcState)
    (env : RegisterEnv) (req : CreateUserRequest)
    (h1 : ∀ u ∈ st.db.users, u.email ≠ req.email)
    (h2 : ∀ u ∈ st.db.users, u.username ≠ req.username)
    (h3 : ∀ u ∈ st.db.users, u.id ≠ env.newUserId) :
    (∃ resp st1 stored,
      register st env req = .ok (resp, st1) ∧
      stored ∈ st1.db.users ∧
      stored.id = env.newUserId ∧ stored.isActive = true ∧
      stored.isVerified = false ∧ stored.role = "customer" ∧
      resp = stored.toResponse) ∧
    (∀ (v : User) (h : BcryptHash),
      User.toResponse { v with passwordHash := h } = v.toResponse) := by
  refine ⟨?_, fun v h => rfl⟩
  have hemailF : (Repo.getByEmail st.db req.email).isOk = false := by
    refine Bool.eq_false_iff.mpr (fun hc => ?_)
    obtain ⟨u, hu, he⟩ := (getByEmail_isOk_iff st.db req.email).mp hc
    exact h1 u hu he
  have husernameF : (Repo.getByUsername st.db req.username).isOk = false := by
    refine Bool.eq_false_iff.mpr (fun hc => ?_)
    obtain ⟨u, hu, he⟩ := (getByUsername_isOk_iff st.db req.username).mp hc
    exact h2 u hu he
  have hany : (st.db.users.any (fun v =>
      v.id == env.newUserId || v.username == req.username ||
        v.email == req.email)) = false := by
    rw [List.any_eq_false]
    intro v hv
    simp only [Bool.or_eq_true, beq_iff_eq, not_or]
    exact ⟨⟨h3 v hv, h2 v hv⟩, h1 v hv⟩
  have hcr : Repo.create st.db env.now
      { id := env.newUserId, username := req.username, email := req.email,
        passwordHash := hashPassword env.salt req.password,
        firstName := req.firstName, lastName := req.lastName,
        phone := req.phone, isActive := true, isVerified := false,
        role := "customer", createdAt := 0, updatedAt := 0,
        lastLoginAt := none }
      = .ok ({ id := env.newUserId, username := req.username,
               email := req.email,
               passwordHash := hashPassword env.salt req.password,
               firstName := req.firstName, lastName := req.lastName,
               phone := req.phone, isActive := true, isVerified := false,
               role := "customer", createdAt := env.now,
               updatedAt := env.now, lastLoginAt := none },
             { st.db with users := st.db.users ++
               [{ id := env.newUserId, username := req.username,
                  email := req.email,
                  passwordHash := hashPassword env.salt req.password,
                  firstName := req.firstName, lastName := req.lastName,
                  phone := req.phone, isActive := true, isVerified := false,
                  role := "customer", createdAt := env.now,
                  updatedAt := env.now, lastLoginAt := none }] }) := by
    unfold Repo.create
    split
    next hcond => simp [hany] at hcond
    next => rfl
  obtain ⟨st1, hreg, husers⟩ :=
    register_ok_of_create_ok st env req _ _ hemailF husernameF hcr
  refine ⟨_, st1, _, hreg, ?_, rfl, rfl, rfl, rfl, rfl⟩
  rw [husers]
  simp

/-- C8 witness: registering carol against the store holding only alice. -/
theorem register_success_witness :
    (∃ resp st1 stored,
      register aliceState sampleEnv c8Req = .ok (resp, st1) ∧
      stored ∈ st1.db.users ∧
      stored.id = sampleEnv.newUserId ∧ stored.isActive = true ∧
      stored.isVerified = false ∧ stored.role = "customer" ∧
      resp = stored.toResponse) ∧
    (∀ (v : User) (h : BcryptHash),
      User.toResponse { v with passwordHash := h } = v.toResponse) :=
  register_success_defaults_and_public_view aliceState sampleEnv c8Req
    (by decide) (by decide) (by decide)

/-- C6. Register fails with an already-exists error whenever some stored
user carries the requested email or the requested username (including the
same email under a different username), and no user row is created. -/
theorem register_existing_email_or_username_conflict (st : SvcState)
    (env : RegisterEnv) (req : CreateUserRequest)
    (h : ∃ u ∈ st.db.users, u.email = req.email ∨
      u.username = req.username) :
    (register st env req = .error .emailAlreadyExists ∨
      register st env req = .error .usernameAlreadyExists) ∧
    stateAfter st (register st env req) = st := by
  by_cases he : (Repo.getByEmail st.db req.email).isOk = true
  · have hr : register st env req = .error .emailAlreadyExists := by
      unfold register
      rw [if_pos he]
    exact ⟨Or.inl hr, by simp [hr, stateAfter]⟩
  · have hnoe : ¬ ∃ u ∈ st.db.users, u.email = req.email := fun hc =>
      he ((getByEmail_isOk_iff st.db req.email).mpr hc)
    have hu : ∃ u ∈ st.db.users, u.username = req.username := by
      obtain ⟨u, humem, hcase⟩ := h
      cases hcase with
      | inl h1 => exact absurd ⟨u, humem, h1⟩ hnoe
      | inr h1 => exact ⟨u, humem, h1⟩
    have hn : (Repo.getByUsername st.db req.username).isOk = true :=
      (getByUsername_isOk_iff st.db req.username).mpr hu
    have hr : register st env req = .error .usernameAlreadyExists := by
      unfold register
      rw [if_neg he, if_pos hn]
    exact ⟨Or.inr hr, by simp [hr, stateAfter]⟩

/-- C6 witness: registering alice's email under a fresh username is a
conflict and leaves the store unchanged. -/
theorem register_conflict_witness :
    (register aliceState sampleEnv c6Req = .error .emailAlreadyExists ∨
      register aliceState sampleEnv c6Req
        = .error .usernameAlreadyExists) ∧
    stateAfter aliceState (register aliceState sampleEnv c6Req)
      = aliceState :=
  register_existing_email_or_username_conflict aliceState sampleEnv c6Req
    (by decide)

/-- C7. When the login identifier resolves (email first, then username) to a
user whose active flag is false, Login fails with the account-deactivated
error even though the supplied password is correct. -/
theorem login_deactivated_rejected (cfg : JWTConfig) (st : SvcState)
    (now : Int) (j1 j2 : Nat) (req : LoginRequest) (u : User)
    (hres : resolveLoginUser st.db req.username = some u)
    (hact : u.isActive = false)
    (hpw : verifyPassword req.password u.passwordHash = true) :
    login cfg st now j1 j2 req = .error .accountDeactivated := by
  unfold login
  rw [hres]
  simp [hact]

/-- C7 witness: bob is deactivated and "OldPass123" is his correct
password; login still reports the account deactivated. -/
theorem login_deactivated_rejected_witness :
    login sampleCfg bobState 0 1 2
      { username := "bob", password := "OldPass123" }
        = .error .accountDeactivated :=
  login_deactivated_rejected sampleCfg bobState 0 1 2
    { username := "bob", password := "OldPass123" } bob (by decide)
    (by decide) (by decide)

/-- C9. UpdateAddress and DeleteAddress on an address whose stored owner
differs from the caller fail before any write, with the does-not-belong
error that the HTTP layer maps to the very same 404 "Address not found"
response as a nonexistent address, and the store is left unchanged. -/
theorem address_ownership_enforced_as_not_found (st : SvcState) (now : Int)
    (uid aid : Nat) (a ex : UserAddress)
    (h1 : Repo.getAddressByID st.db aid = .ok ex)
    (h2 : ex.userId ≠ uid) :
    updateAddress st now uid aid a = .error .addressNotOwned ∧
    deleteAddress st uid aid = .error .addressNotOwned ∧
    stateAfter st (updateAddress st now uid aid a) = st ∧
    stateAfterUnit st (deleteAddress st uid aid) = st ∧
    addressErrorResponse .addressNotOwned = (404, "Address not found") ∧
    addressErrorResponse .addressNotFound = (404, "Address not found") := by
  have hbne : (ex.userId != uid) = true := by simpa [bne_iff_ne] using h2
  have hu : updateAddress st now uid aid a = .error .addressNotOwned := by
    unfold updateAddress
    rw [h1]
    simp [hbne]
  have hd : deleteAddress st uid aid = .error .addressNotOwned := by
    unfold deleteAddress
    rw [h1]
    simp [hbne]
  exact ⟨hu, hd, by simp [hu, stateAfter], by simp [hd, stateAfterUnit],
    by decide, by decide⟩

/-- C9 witness: bob (id 2) operating on alice's address (id 20). -/
theorem address_ownership_witness :
    updateAddress addrState 7 2 20 shippingAddr
      = .error .addressNotOwned ∧
    deleteAddress addrState 2 20 = .error .addressNotOwned ∧
    stateAfter addrState (updateAddress addrState 7 2 20 shippingAddr)
      = addrState ∧
    stateAfterUnit addrState (deleteAddress addrState 2 20) = addrState ∧
    addressErrorResponse .addressNotOwned = (404, "Address not found") ∧
    addressErrorResponse .addressNotFound = (404, "Address not found") :=
  address_ownership_enforced_as_not_found addrState 7 2 20 shippingAddr
    aliceAddr (by rfl) (by decide)

/-- C10. The active-flag check in Login precedes password verification:
whenever the identifier resolves to a deactivated user, the result is the
account-deactivated error — never invalid-credentials — for every supplied
password, in particular a wrong one. -/
theorem login_active_check_before_password (cfg : JWTConfig) (st : SvcState)
    (now : Int) (j1 j2 : Nat) (req : LoginRequest) (u : User)
    (hres : resolveLoginUser st.db req.username = some u)
    (hact : u.isActive = false) :
    login cfg st now j1 j2 req = .error .accountDeactivated ∧
    login cfg st now j1 j2 req ≠ .error .invalidCredentials := by
  have hr : login cfg st now j1 j2 req = .error .accountDeactivated := by
    unfold login
    rw [hres]
    simp [hact]
  exact ⟨hr, by simp [hr]⟩

/-- C10 witness: a wrong password on the deactivated bob still yields the
account-deactivated error, not invalid-credentials. -/
theorem login_active_check_before_password_witness :
    login sampleCfg bobState 0 1 2
      { username := "bob", password := "totally-wrong" }
        = .error .accountDeactivated ∧
    login sampleCfg bobState 0 1 2
      { username := "bob", password := "totally-wrong" }
        ≠ .error .invalidCredentials :=
  login_active_check_before_password sampleCfg bobState 0 1 2
    { username := "bob", password := "totally-wrong" } bob (by decide)
    (by decide)

end Commercium
